import Mathlib

/-!
Verification development for the voicefusion-ai repository.

The Python sources `src/main.py` (the FastAPI/Twilio webhook service, namespace
`Main` below) and `src/human_update.py` (the `VoiceSalesBot` text/voice agent,
namespace `HU` below) are shallowly embedded: mutable module state becomes
explicit state passing, the OpenAI chat-completion vendor call becomes an
oracle parameter (a list of outcomes, `none` standing for a raised exception),
Resend email sends and file writes become append-only logs on the state.
-/

namespace VoiceFusion

/-- Python `needle in hay` prefix step: does `hay` start with `needle`? -/
def startsWithChars : List Char → List Char → Bool
  | [], _ => true
  | _ :: _, [] => false
  | a :: as, b :: bs => a == b && startsWithChars as bs

/-- Substring search on character lists (Python `needle in hay`). -/
def containsSub : List Char → List Char → Bool
  | needle, [] => needle.isEmpty
  | needle, c :: t => startsWithChars needle (c :: t) || containsSub needle t

/-- Python `needle in hay` on strings. -/
def strContains (hay needle : String) : Bool :=
  containsSub needle.data hay.data

/-- Python `str.lower()` (ASCII, as used by the sources). -/
def pyLower (s : String) : String := ⟨s.data.map Char.toLower⟩

/-- Python `str.strip()` (whitespace at both ends). -/
def pyStrip (s : String) : String :=
  ⟨((s.data.dropWhile Char.isWhitespace).reverse.dropWhile
      Char.isWhitespace).reverse⟩

/-- Python `str.rstrip(chars)`. -/
def pyRstrip (s : String) (chars : List Char) : String :=
  ⟨(s.data.reverse.dropWhile (fun c => chars.contains c)).reverse⟩

/-- Python `str.strip(chars)` (both ends). -/
def pyStripChars (s : String) (chars : List Char) : String :=
  ⟨((s.data.dropWhile (fun c => chars.contains c)).reverse.dropWhile
      (fun c => chars.contains c)).reverse⟩

/-- Worker for `pySplit`: the accumulator holds the current word reversed. -/
def splitWsAux : List Char → List Char → List String
  | [], acc => if acc.isEmpty then [] else [⟨acc.reverse⟩]
  | c :: t, acc =>
      if Char.isWhitespace c then
        if acc.isEmpty then splitWsAux t []
        else ⟨acc.reverse⟩ :: splitWsAux t []
      else splitWsAux t (c :: acc)

/-- Python `str.split()`: split on whitespace runs, dropping empty pieces. -/
def pySplit (s : String) : List String := splitWsAux s.data []

/-- Python list slice `l[-n:]`. -/
def pyLastN (n : Nat) (l : List α) : List α := l.drop (l.length - n)

/-- Rendering of a Python value in an f-string: `None` for the null value. -/
def pyShowOptStr : Option String → String
  | none => "None"
  | some s => s

/-- Python truthiness of an optional string (`None` and `""` are falsy). -/
def pyTruthy : Option String → Bool
  | none => false
  | some s => s ≠ ""

namespace Main

/-! Embedding of `src/main.py`. -/

/-- One chat message, as stored in `conv["history"]`. -/
structure Msg where
  role : String
  content : String
deriving DecidableEq, Repr

/-- The per-call conversation record created by `get_ai_response`
(`conversations[call_sid] = {...}` in `src/main.py`).  `project_id` is the key
added later by the payment webhook; it is absent (`none`) at initialization. -/
structure Conv where
  history : List Msg
  stage : String
  phase : String
  current_step : Nat
  committed : Bool
  client_name : Option String
  firm_name : Option String
  email : Option String
  phone_number : Option String
  selected_addons : List String
  selected_maintenance : Option String
  payment_completed : Bool
  payment_confirmed_by_webhook : Bool
  silence_count : Nat
  project_id : Option String := none
deriving DecidableEq, Repr

/-- The initial record (`src/main.py` lines 83-98).  A call id extracted from
the Twilio form is an `Option String` (Python `form_data.get` may yield
`None`), so the `conversations` dict is keyed by `Option String`. -/
def initConv : Conv :=
  { history := []
    stage := "greeting"
    phase := "SALES"
    current_step := 1
    committed := false
    client_name := none
    firm_name := none
    email := none
    phone_number := none
    selected_addons := []
    selected_maintenance := none
    payment_completed := false
    payment_confirmed_by_webhook := false
    silence_count := 0 }

/-- Association-list lookup (Python `dict` access / `in` test). -/
def lookupConv : List (Option String × Conv) → Option String → Option Conv
  | [], _ => none
  | (k, v) :: t, sid => if k = sid then some v else lookupConv t sid

/-- Association-list write (Python `dict` assignment; insertion order kept). -/
def setConv : List (Option String × Conv) → Option String → Conv →
    List (Option String × Conv)
  | [], sid, v => [(sid, v)]
  | (k, w) :: t, sid, v =>
      if k = sid then (sid, v) :: t else (k, w) :: setConv t sid v

/-- A sent email (the `params` passed to `resend.Emails.send`); `recipients`
is the "to" key of the params dict. -/
structure Email where
  sender : String
  recipients : List String
  subject : String
  html : String
deriving DecidableEq, Repr

/-- The module-level mutable state of `src/main.py`: `conversations`,
`sent_notifications`, `sent_integration_forms`, plus the log of emails
actually handed to the Resend vendor call. -/
structure St where
  conversations : List (Option String × Conv)
  sent_notifications : List (Option String)
  sent_integration_forms : List String
  emails : List Email
deriving DecidableEq, Repr

/-- Environment variables read by `src/main.py` (`os.getenv`). -/
structure Env where
  human_phone : Option String
  admin_email : Option String
  from_email : Option String
deriving DecidableEq, Repr

/-- `affirmative_responses` (`src/main.py` lines 108-110). -/
def affirmative_responses : List String :=
  ["yes", "yeah", "yep", "yup", "sure", "okay", "ok", "definitely",
   "absolutely", "let\x27s do it", "i\x27m interested", "sounds good",
   "that works", "i\x27d like that", "i want it", "let\x27s get started"]

/-- `closing_indicators` (`src/main.py` lines 122-140). -/
def closing_indicators : List String :=
  ["interested in learning more",
   "does that sound",
   "would that help",
   "sound like it would help",
   "make sense for your",
   "ready to",
   "want to get started",
   "shall we get",
   "would you like",
   "does this sound",
   "would this help",
   "sound helpful",
   "sound like a good fit",
   "let\x27s get you set up",
   "let\x27s get started",
   "start capturing those leads",
   "get you set up"]

/-- `discovery_indicators` (`src/main.py` lines 143-154). -/
def discovery_indicators : List String :=
  ["are you losing leads",
   "do you have",
   "are you currently",
   "does your office",
   "how does your",
   "what happens when",
   "do leads",
   "does your receptionist",
   "after hours",
   "outside business hours"]

/-- Appending the incoming user message to the record
(`conv["history"].append({"role": "user", "content": user_input})`). -/
def convAfterUser (conv : Conv) (user_input : String) : Conv :=
  { conv with history := conv.history ++ [⟨"user", user_input⟩] }

/-- The `last_bot_message` consulted by the phase switch: content of the last
assistant entry among the last four history entries (after the user append). -/
def lastBotMessage (history : List Msg) : String :=
  (((pyLastN 4 history).filter (fun m => m.role == "assistant")).map
    (fun m => m.content)).getLast?.getD ""

/-- The SALES→ONBOARDING switch decision of `get_ai_response`
(`src/main.py` lines 103-161): the record is in the SALES phase, the cleaned
user input is an exact affirmative, and the last bot message matches a closing
indicator but no discovery indicator. -/
def shouldSwitch (conv : Conv) (user_input : String) : Bool :=
  let user_input_clean :=
    pyRstrip (pyStrip (pyLower user_input)) ['.', ',', '!', '?', ';']
  conv.phase == "SALES" && affirmative_responses.contains user_input_clean &&
    (let last_bot_message := lastBotMessage conv.history
     closing_indicators.any (fun ind =>
        strContains (pyLower last_bot_message) ind) &&
      !discovery_indicators.any (fun ind =>
        strContains (pyLower last_bot_message) ind))

/-- Applying the phase switch to the record (`src/main.py` lines 161-164). -/
def convAfterSwitch (conv : Conv) (user_input : String) : Conv :=
  if shouldSwitch conv user_input then
    { conv with committed := true, phase := "ONBOARDING", current_step := 1 }
  else conv

/-- `silence_context` (`src/main.py` lines 175-181). -/
def buildSilenceContext (stage : String) (conv : Conv) : String :=
  if stage == "conversation" && conv.history.length > 2 &&
      ((pyLastN 3 conv.history).filter (fun m => m.role == "assistant")).any
        (fun m => strContains (pyLower m.content) "still there") then
    "\n\nNOTE: User had brief silence but is now responding. Acknowledge naturally and continue conversation without making a big deal of it."
  else ""

/-- The SALES-phase system prompt (`src/main.py` lines 184-244).  Note that
Python `conv.get('client_name', 'Unknown')` returns the stored value `None`
when the key is present, so an uncaptured field renders as `None`, not
`Unknown`; `pyShowOptStr` reproduces that. -/
def sales_system_prompt (stage : String) (conv : Conv)
    (silence_context : String) : String :=
  "You are a professional sales representative for LawBot 360, an AI client intake system for law firms.

Current stage: " ++ stage ++ "
Client name: " ++ pyShowOptStr conv.client_name ++ "
Firm: " ++ pyShowOptStr conv.firm_name ++ "
Phase: SALES MODE - Building Value

YOUR GOAL: Build interest and value, then transition to setup when they show interest

CRITICAL RULES:
1. Be PROFESSIONAL and CONSULTATIVE - you\x27re a trusted advisor, not pushy
2. Keep responses SHORT (1-2 sentences max) - this is a phone call
3. NEVER MENTION PRICING - they\x27ll see it in the portal
4. Focus on BENEFITS and ROI, not features
5. Ask questions to understand their needs
6. When they show interest → transition to setup
7. Be warm, confident, and helpful

PRODUCT: LawBot 360
- 24/7 AI-powered client intake chatbot
- Automatic lead qualification and consultation scheduling
- Integrates with Clio, Salesforce, MyCase
- Customizable for any practice area
- Proven to increase client intake by 40%

CONSULTATIVE APPROACH:
1. Opening: \"Great! I\x27m here to help. Quick question - are you currently losing leads when your office is closed?\"
2. Discovery: Ask about their current intake process (ONE question at a time)
3. Pain points: Listen and identify what\x27s not working
4. Solution: \"LawBot 360 handles that 24/7 - our clients see 40% more consultations\"
5. Value: \"If you could capture even 2-3 more quality leads per month, that would be significant, right?\"
6. Trial close: \"Does that sound like it would help your firm?\"
7. When they say YES → Transition: \"Perfect! Let\x27s get you set up right now so you can start capturing those leads.\"

HANDLING SHORT RESPONSES:
- If they say just \"yes\", \"yeah\", \"sure\", \"okay\" → ALWAYS respond positively and move forward
- Example: User says \"Yes\" → You say \"Perfect! Let me show you how this works for your firm specifically...\"
- NEVER leave a \"yes\" response hanging - always acknowledge and continue
- If you asked a question and they answered affirmatively, ACT ON IT

NEVER MENTION:
- ❌ Pricing or costs ($7,500, $25,000, etc.)
- ❌ Down payments
- ❌ Payment terms
- ❌ Specific dollar amounts
- ❌ \"Investment\" or \"cost\"

Instead focus on:
- ✅ Benefits (24/7 coverage, more clients)
- ✅ ROI (more cases captured)
- ✅ Pain relief (no more missed leads)
- ✅ Value (how it helps their practice)

OBJECTION HANDLING (without mentioning price):
- \"How much does it cost?\" → \"Great question! You\x27ll see all the details when we get you set up. First, does the concept make sense for your practice?\"
- \"Is it expensive?\" → \"It\x27s an investment in growing your practice. Most firms see it pay for itself quickly. Let\x27s get you set up and you can see all the options.\"
- \"What\x27s the price?\" → \"I\x27ll show you everything when we set you up. But tell me - if you could capture 40% more leads, would that be valuable?\"

Remember: Build VALUE, then transition to setup. Never discuss pricing!
" ++ silence_context ++ "
"

/-- The ONBOARDING-phase system prompt (`src/main.py` lines 247-322). -/
def onboarding_system_prompt (stage : String) (conv : Conv)
    (silence_context : String) : String :=
  "You are a patient, helpful onboarding specialist for 4D Gaming.

Current stage: " ++ stage ++ "
Current step: " ++ toString conv.current_step ++ "/14
Client name: " ++ pyShowOptStr conv.client_name ++ "
Firm: " ++ pyShowOptStr conv.firm_name ++ "
Phase: ONBOARDING MODE

YOUR GOAL: Walk them through COMPLETE setup - from portal login to payment completion

CRITICAL: If user just said \"yes\" or showed interest, START IMMEDIATELY with Step 1!
Don\x27t ask if they\x27re ready - they already said yes! Just begin the onboarding.

WHEN FIRST ENTERING ONBOARDING (user just committed):
- Immediately respond with: \"Perfect! Let\x27s get you set up right now. Open your browser and go to 4dgaming.games/client-portal.html. Tell me when you have it open.\"
- Do NOT ask \"Are you ready?\" or \"Shall we begin?\" - they already committed!
- Do NOT hesitate or wait - start Step 1 immediately

ONBOARDING RULES:
1. Be PATIENT and FRIENDLY - guide them gently
2. ONE step at a time - wait for confirmation
3. Keep responses SHORT (1-2 sentences)
4. Answer questions about features thoroughly
5. Let THEM discover pricing in the portal (don\x27t mention it)
6. If they ask about add-on features, explain the benefits

ONBOARDING STEPS:

STEP 1: \"Perfect! Let\x27s get you set up right now. Open your browser and go to 4dgaming.games/client-portal.html. Tell me when you have it open.\"

STEP 2: \"Great! Now create your account or log in if you have one. Let me know when you\x27re in.\"

STEP 3: \"Excellent! Scroll down and look for \x27Start a new project\x27. Do you see it?\"

STEP 4: \"Perfect! Click the dropdown for \x27Select service\x27, then scroll down and choose \x27LawBot 360\x27. Tell me when you\x27ve selected it.\"

STEP 5: \"Great! Where it says \x27Project name\x27, enter your firm\x27s name. What\x27s your firm name?\"

STEP 6: \"Good! Fill in \x27Brief description\x27 - just describe what you need for your practice. Then complete \x27Project details\x27. Let me know when you\x27re ready.\"

STEP 7: \"Now you\x27ll see Optional Features - add-ons you might want:
- Native iOS & Android apps - gives your clients mobile access
- Multi-language support - serve diverse communities
- Advanced Analytics - track your ROI and performance
- SMS/WhatsApp integration - reach clients where they are
- Multi-location support - for firms with multiple offices
Would you like any of these add-ons? If you\x27re not sure, you can skip them.\"

STEP 8: \"Perfect! Now choose a Monthly Maintenance Plan:
- Basic: Hosting, security updates, bug fixes, email support
- Professional: Everything in Basic plus priority support and monthly feature updates
- Enterprise: Everything plus 24/7 support and custom feature development
Or you can select \x27No Maintenance Plan\x27 if you prefer to handle it yourself.
Which makes sense for your firm?\"

STEP 9: \"Excellent! Click the \x27Create Project\x27 button. Let me know when it\x27s created.\"

STEP 10: \"Great! Look at the right side of your screen for the project summary. Do you see it?\"

STEP 11: \"Perfect! If you have any files to upload or messages to add, you can click \x27Browse\x27. Otherwise, we can move to payment. Ready to continue?\"

STEP 12: \"Excellent! You\x27ll see the \x27Fund Milestone 1\x27 button with your total amount. Click it and you\x27ll be taken to our secure Stripe payment page. The payment includes everything you selected. Let me know when you\x27re on the payment page.\"

STEP 13: \"Take your time completing the payment. I\x27m right here if you have questions. Let me know when it\x27s done.\"

STEP 14: \"Congratulations! Your payment is complete. Here\x27s what happens next:
- Our team reviews your project within 24 hours
- You\x27ll receive your project timeline and start date
- Setup takes 2 weeks
- You\x27ll receive the integration form via email shortly

Do you have any questions about the process or your new LawBot 360 system?\"

Remember: Be PATIENT, HELPFUL, ONE STEP AT A TIME. They\x27ll see pricing in the portal naturally.
" ++ silence_context ++ "
"

/-- The system prompt chosen by `get_ai_response`: SALES prompt when the
record (after the possible switch) is in the SALES phase, otherwise the
ONBOARDING prompt. -/
def buildSystemPrompt (stage : String) (conv : Conv) : String :=
  let silence_context := buildSilenceContext stage conv
  if conv.phase == "SALES" then sales_system_prompt stage conv silence_context
  else onboarding_system_prompt stage conv silence_context

/-- The `elif` chain of the onboarding step tracker (`src/main.py` lines
343-370): which step, if any, the lowercased assistant reply `rl` matches.
Each branch of the source chain only assigns `current_step` (and, for step
14, `payment_completed`), so the chain is recorded here as the matched step
number and applied to the record by `stepTrack`. -/
def stepNumber (rl : String) : Option Nat :=
  if strContains rl "4dgaming.games/client-portal" then some 1
  else if strContains rl "create your account" || strContains rl "log in" then
    some 2
  else if strContains rl "start a new project" then some 3
  else if strContains rl "select service" ||
      strContains rl "choose \x27lawbot" then some 4
  else if strContains rl "project name" && strContains rl "firm" then some 5
  else if strContains rl "brief description" then some 6
  else if strContains rl "optional features" || strContains rl "add-ons" then
    some 7
  else if strContains rl "maintenance plan" then some 8
  else if strContains rl "create project" && strContains rl "button" then some 9
  else if strContains rl "project summary" then some 10
  else if strContains rl "upload" || strContains rl "files" ||
      strContains rl "browse" then some 11
  else if strContains rl "fund milestone" || strContains rl "payment page" then
    some 12
  else if strContains rl "take your time" && strContains rl "payment" then
    some 13
  else if strContains rl "congratulations" then some 14
  else none

/-- The onboarding step tracker run on the assistant reply
(`src/main.py` lines 341-371); `rl` is the lowercased reply.  Only the step
14 branch of the source also sets `payment_completed = True`. -/
def stepTrack (c : Conv) (rl : String) : Conv :=
  match stepNumber rl with
  | none => c
  | some n =>
      { c with current_step := n
               payment_completed := c.payment_completed || n == 14 }

/-- The canned reply of the `except` branch of `get_ai_response`. -/
def apology_reply : String :=
  "I apologize, let me connect you with a human specialist who can help."

/-- Result of `get_ai_response`: the updated `conversations` dict, the
returned reply, the remaining vendor-outcome stream, and the `messages`
payload that was handed to the chat-completion call. -/
structure GAIResult where
  convs : List (Option String × Conv)
  reply : String
  oracle : List (Option String)
  messagesSent : List Msg
deriving Repr

/-- The success path of `get_ai_response` after the completion returns
(`src/main.py` lines 337-371): append the assistant message to the history,
then run the onboarding step tracker when the record is in the ONBOARDING
phase. -/
def successConv (conv1 : Conv) (ai_response : String) : Conv :=
  let conv2 :=
    { conv1 with history := conv1.history ++ [⟨"assistant", ai_response⟩] }
  if conv2.phase == "ONBOARDING" then stepTrack conv2 (pyLower ai_response)
  else conv2

/-- `get_ai_response` (`src/main.py` lines 78-377).  The OpenAI call is an
oracle: the head of `oracle` is this call\x27s outcome, `some r` a successful
completion with content `r`, `none` (or an exhausted stream) a raised
exception.  In the source the record is a dict mutated in place, so the user
append and the phase switch are visible in `conversations` on every path,
including the exception path. -/
def get_ai_response (convs : List (Option String × Conv))
    (call_sid : Option String) (user_input stage : String)
    (oracle : List (Option String)) : GAIResult :=
  let conv0 := (lookupConv convs call_sid).getD initConv
  let conv1 := convAfterSwitch (convAfterUser conv0 user_input) user_input
  let system_prompt := buildSystemPrompt stage conv1
  let messages := ⟨"system", system_prompt⟩ :: pyLastN 15 conv1.history
  match oracle with
  | some ai_response :: rest =>
      ⟨setConv convs call_sid (successConv conv1 ai_response), ai_response,
       rest, messages⟩
  | none :: rest =>
      ⟨setConv convs call_sid conv1, apology_reply, rest, messages⟩
  | [] =>
      ⟨setConv convs call_sid conv1, apology_reply, [], messages⟩

/-- Attributes of a Twilio `Gather` as constructed at the call sites of
`src/main.py`; unsupplied keyword arguments stay `none`. -/
structure GatherCfg where
  input : Option String := none
  numDigits : Option Nat := none
  action : Option String := none
  httpMethod : Option String := none
  timeout : Option Nat := none
  speechTimeout : Option String := none
  finishOnKey : Option String := none
deriving DecidableEq, Repr

/-- A TwiML verb appended to the `VoiceResponse`. -/
inductive Verb where
  | say (text : String) (voice : String)
  | gather (g : GatherCfg)
  | dial (number : Option String) (timeout : Nat) (action : String)
      (httpMethod : String)
  | redirect (url : String)
  | hangup
deriving DecidableEq, Repr

/-- An HTTP response of a webhook handler: the TwiML document (as the list of
verbs of the `VoiceResponse`; its XML rendering is the vendor SDK\x27s) and the
media type passed to `PlainTextResponse`. -/
structure Resp where
  verbs : List Verb
  mediaType : String
deriving DecidableEq, Repr

/-- Every `/voice` endpoint returns its `VoiceResponse` string with
`media_type="application/xml"`. -/
def xmlResp (vs : List Verb) : Resp := ⟨vs, "application/xml"⟩

/-- `VOICE = "Polly.Joanna"` (`src/main.py` line 52). -/
def VOICE : String := "Polly.Joanna"

/-- `transfer_to_human` (`src/main.py` lines 55-75): appends either a `Dial`
to the configured `HUMAN_PHONE` or, when `PHONE` is unset, a canned apology
naming the direct number. -/
def transfer_to_human (env : Env) (verbs : List Verb) : List Verb :=
  match env.human_phone with
  | none =>
      verbs ++ [.say "I apologize, but I\x27m unable to transfer you right now. Please call us directly at 504-383-3692." VOICE]
  | some p => verbs ++ [.dial (some p) 30 "/voice/dial-status" "POST"]

/-- The Twilio webhook form body: key/value pairs. -/
def Form := List (String × String)

/-- Python `form_data.get(key)`. -/
def formGet : Form → String → Option String
  | [], _ => none
  | (k, v) :: t, key => if k = key then some v else formGet t key

/-- Python `form_data.get(key, default)`. -/
def formGetD (f : Form) (key dflt : String) : String := (formGet f key).getD dflt

/-- A line of 50 `=` characters (`"="*50`). -/
def eqLine50 : String := ⟨List.replicate 50 '='⟩

/-- The transcript plain-text block built by `notify_human_transfer`
(`src/main.py` lines 963-998).  `conv.get("pain_points")` is always `None`
because no code of `src/main.py` ever stores that key, so that branch is
dead and omitted. -/
def transcriptText (st : St) (call_sid : Option String) : String :=
  match lookupConv st.conversations call_sid with
  | none => "No conversation history available"
  | some conv =>
      if conv.history ≠ [] then
        let base := "\n" ++ eqLine50 ++ "\nCONVERSATION TRANSCRIPT:\n" ++
          eqLine50 ++ "\n"
        let base := conv.history.foldl (fun acc m =>
          if m.role == "user" then acc ++ "PROSPECT: " ++ m.content ++ "\n\n"
          else if m.role == "assistant" then
            acc ++ "AI BOT: " ++ m.content ++ "\n\n"
          else acc) base
        let base :=
          if pyTruthy conv.client_name then
            base ++ "\nClient Name: " ++ conv.client_name.getD "" ++ "\n"
          else base
        if pyTruthy conv.firm_name then
          base ++ "Firm Name: " ++ conv.firm_name.getD "" ++ "\n"
        else base
      else "No conversation history available"

/-- The transcript HTML block built by `notify_human_transfer`. -/
def transcriptHtml (st : St) (call_sid : Option String) : String :=
  match lookupConv st.conversations call_sid with
  | none => "<p><em>No conversation history available</em></p>"
  | some conv =>
      if conv.history ≠ [] then
        let base := "<h3>Conversation Transcript:</h3><div style=\x27background: #f5f5f5; padding: 15px; border-radius: 5px;\x27>"
        let base := conv.history.foldl (fun acc m =>
          if m.role == "user" then
            acc ++ "<p><strong>Prospect:</strong> " ++ m.content ++ "</p>"
          else if m.role == "assistant" then
            acc ++ "<p><strong>AI Bot:</strong> " ++ m.content ++ "</p>"
          else acc) base
        let base := base ++ "</div>"
        let base :=
          if pyTruthy conv.client_name then
            base ++ "<p><strong>Client Name:</strong> " ++
              conv.client_name.getD "" ++ "</p>"
          else base
        if pyTruthy conv.firm_name then
          base ++ "<p><strong>Firm Name:</strong> " ++
            conv.firm_name.getD "" ++ "</p>"
        else base
      else "<p><em>No conversation history available</em></p>"

/-- The HTML body of the transfer-notification email
(`src/main.py` lines 1048-1082). -/
def notifyHtml (env : Env) (from_number call_sid : Option String)
    (reason : String) (conversation_html : String) : String :=
  "
            <div style=\"font-family: Arial, sans-serif; max-width: 600px;\">
                <h2 style=\"color: #667eea;\">🔔 Live Call Transfer</h2>

                <div style=\"background: #fff3cd; padding: 15px; border-radius: 5px; margin: 20px 0;\">
                    <p style=\"margin: 0; font-weight: bold; color: #856404;\">
                        ⚡ INCOMING CALL - Answer your phone now!
                    </p>
                </div>

                <h3>Call Details:</h3>
                <ul>
                    <li><strong>From:</strong> " ++ pyShowOptStr from_number ++ "</li>
                    <li><strong>Reason:</strong> " ++ reason ++ "</li>
                    <li><strong>Call SID:</strong> " ++ pyShowOptStr call_sid ++ "</li>
                    <li><strong>Your Number:</strong> " ++ pyShowOptStr env.human_phone ++ "</li>
                </ul>

                " ++ conversation_html ++ "

                <div style=\"background: #e7f3ff; padding: 15px; border-radius: 5px; margin-top: 20px;\">
                    <p><strong>📞 Next Steps:</strong></p>
                    <ol>
                        <li>Answer the incoming call on " ++ pyShowOptStr env.human_phone ++ "</li>
                        <li>Review the conversation above to see where the bot left off</li>
                        <li>Continue the conversation naturally</li>
                        <li>Close the deal! 💰</li>
                    </ol>
                </div>

                <p style=\"color: #666; font-size: 12px; margin-top: 30px;\">
                    This is an automated notification from LawBot 360 Sales Bot
                </p>
            </div>
            "

/-- `notify_human_transfer` (`src/main.py` lines 952-1091).  The call id is
added to `sent_notifications` before any email attempt; the email is sent
only when a sender address is configured and is not a Gmail address. -/
def notify_human_transfer (env : Env) (st : St)
    (from_number call_sid : Option String) (reason : String) : St :=
  if st.sent_notifications.contains call_sid then st
  else
    let st := { st with
      sent_notifications := st.sent_notifications ++ [call_sid] }
    let conversation_html := transcriptHtml st call_sid
    let sender_email :=
      match env.admin_email with
      | some a => some a
      | none => env.from_email
    let recipient_email := env.from_email.getD "onboarding@resend.dev"
    match sender_email with
    | none => st
    | some sender =>
        if strContains (pyLower sender) "@gmail.com" then st
        else
          { st with emails := st.emails ++
            [{ sender := sender
               recipients := [recipient_email]
               subject := "🔔 Live Call Transfer - " ++ pyShowOptStr from_number
               html := notifyHtml env from_number call_sid reason
                 conversation_html }] }

/-- The HTML body of the integration-form email
(`src/main.py` lines 885-938). -/
def integrationHtml (client_name : String) : String :=
  "
            <div style=\"font-family: Arial, sans-serif; max-width: 600px;\">
                <h2 style=\"color: #667eea;\">Welcome to 4D Gaming! 🎉</h2>

                <p>Hi " ++ client_name ++ ",</p>

                <p>Thank you for choosing LawBot 360! Your payment has been received and we\x27re excited to get started on your custom AI client intake system.</p>

                <div style=\"background: #e7f3ff; padding: 20px; border-radius: 5px; margin: 20px 0;\">
                    <h3 style=\"margin-top: 0;\">📋 Next Step: Complete Your Integration Form</h3>
                    <p>To begin your project, please complete our integration form:</p>
                    <p style=\"text-align: center; margin: 20px 0;\">
                        <a href=\"https://4dgaming.games/client-integration.html\"
                           style=\"background: #667eea; color: white; padding: 15px 30px;
                                  text-decoration: none; border-radius: 5px; font-weight: bold; display: inline-block;\">
                            Complete Integration Form
                        </a>
                    </p>
                    <p style=\"font-size: 14px;\">Or copy this link: https://4dgaming.games/client-integration.html</p>
                </div>

                <h3>What Happens Next:</h3>
                <ol>
                    <li>Complete the integration form (takes ~10 minutes)</li>
                    <li>Our team reviews your information within 24 hours</li>
                    <li>You\x27ll receive your project timeline and start date</li>
                    <li>Design and development begins (2 weeks)</li>
                    <li>You get your custom LawBot 360!</li>
                </ol>

                <h3>What\x27s Included:</h3>
                <ul>
                    <li>✅ 24/7 AI-powered client intake chatbot</li>
                    <li>✅ Custom conversation flows for your practice areas</li>
                    <li>✅ Lead qualification and consultation scheduling</li>
                    <li>✅ Integration with your existing systems</li>
                    <li>✅ Full training and support</li>
                </ul>

                <div style=\"background: #fff3cd; padding: 15px; border-radius: 5px; margin: 20px 0;\">
                    <p style=\"margin: 0;\"><strong>Questions?</strong> Reply to this email or call us at (504) 383-3692</p>
                </div>

                <p>Thank you for your business!</p>

                <p>Best regards,<br/>
                The 4D Gaming Team<br/>
                <a href=\"https://4dgaming.games\">4dgaming.games</a></p>

                <p style=\"color: #666; font-size: 12px; margin-top: 30px;\">
                    This email was sent because you completed payment for LawBot 360 services.
                </p>
            </div>
            "

/-- `send_integration_form_email` (`src/main.py` lines 851-949).  The
deduplication key `client_email:firm_name` is added to
`sent_integration_forms` before the email attempt; the email is skipped for
Gmail sender addresses. -/
def send_integration_form_email (env : Env) (st : St)
    (client_email client_name firm_name : String) : St :=
  let dedup_key := client_email ++ ":" ++ firm_name
  if st.sent_integration_forms.contains dedup_key then st
  else
    let st := { st with
      sent_integration_forms := st.sent_integration_forms ++ [dedup_key] }
    let from_email := env.from_email.getD "onboarding@resend.dev"
    let sender_email :=
      match env.admin_email with
      | some a => a
      | none => from_email
    if strContains (pyLower sender_email) "@gmail.com" then st
    else
      { st with emails := st.emails ++
        [{ sender := sender_email
           recipients := [client_email]
           subject := "Welcome to 4D Gaming - Integration Form for " ++ firm_name
           html := integrationHtml client_name }] }

/-- JSON body of `/webhook/payment-confirmed` (all keys optional). -/
structure PaymentData where
  project_id : Option String
  user_email : Option String
  phone_number : Option String
  amount : Option String
deriving DecidableEq, Repr

/-- The conversation-matching loop of `payment_confirmed_webhook`
(`src/main.py` lines 795-804).  `conv.get("email", "").lower()` raises
`AttributeError` when the stored email is `None` (the key is always present),
which the outer `try` turns into an error response; `.error` models that. -/
def findMatch : List (Option String × Conv) → Option String → Option String →
    Except Unit (Option (Option String))
  | [], _, _ => .ok none
  | (call_sid, conv) :: rest, user_email, phone_number =>
      match conv.email with
      | none => .error ()
      | some e =>
          let conv_email := pyLower e
          let conv_phone := conv.phone_number
          if (pyTruthy user_email && conv_email == pyLower (user_email.getD ""))
              || (pyTruthy phone_number && conv_phone == phone_number) then
            .ok (some call_sid)
          else findMatch rest user_email phone_number

/-- `payment_confirmed_webhook` (`src/main.py` lines 767-831): dedup check on
`payment:{project_id}:{user_email}`, match a conversation by email or phone,
mark it paid and send the integration form when the record has an email.
Returns the updated state and the `message` of the JSON reply. -/
def payment_confirmed_webhook (env : Env) (st : St) (data : PaymentData) :
    St × String :=
  let webhook_key := "payment:" ++ pyShowOptStr data.project_id ++ ":" ++
    pyShowOptStr data.user_email
  if st.sent_integration_forms.contains webhook_key then
    (st, "Already processed")
  else
    match findMatch st.conversations data.user_email data.phone_number with
    | .error _ => (st, "error")
    | .ok none => (st, "Payment received but no active call found")
    | .ok (some matched_call_sid) =>
        let conv := (lookupConv st.conversations matched_call_sid).getD initConv
        let conv := { conv with
          payment_completed := true
          payment_confirmed_by_webhook := true
          project_id := data.project_id }
        let st := { st with
          conversations := setConv st.conversations matched_call_sid conv }
        -- `conv.get("client_name", "there")` yields the stored `None` (the
        -- key always exists), rendered as "None" in the email body.
        if pyTruthy conv.email then
          (send_integration_form_email env st (conv.email.getD "")
            (pyShowOptStr conv.client_name) (pyShowOptStr conv.firm_name),
           "Payment confirmed and integration form sent")
        else (st, "Payment confirmed and integration form sent")

/-- Result of a stateful voice handler. -/
structure HOut where
  st : St
  resp : Resp
  oracle : List (Option String)
deriving Repr

/-- `/voice/inbound` (`src/main.py` lines 395-427), after form extraction. -/
def handle_inbound_call_core (env : Env) (_from_number _call_sid : Option String) :
    Resp :=
  xmlResp (transfer_to_human env
    [.say "Hi! Thanks for calling 4D Gaming about LawBot 360. Press 1 to speak with me about our AI client intake system, or press 2 to speak with a human team member right away." VOICE,
     .gather { numDigits := some 1, action := some "/voice/handle-choice",
               httpMethod := some "POST", timeout := some 10 },
     .say "I didn\x27t receive a selection. Transferring you now." VOICE])

/-- `/voice/inbound`: reads `From` and `CallSid` from the form. -/
def handle_inbound_call (env : Env) (form : Form) : Resp :=
  handle_inbound_call_core env (formGet form "From") (formGet form "CallSid")

/-- `/voice/outbound/cold-call` (`src/main.py` lines 430-465). -/
def initiate_cold_call_core (_to_number _call_sid : Option String) : Resp :=
  xmlResp
    [.say "Hi! This is calling from 4D Gaming. Quick question - are you losing leads outside business hours, nights and weekends? We fix that with AI. Got 5 minutes?" VOICE,
     .gather { input := some "speech dtmf", timeout := some 5,
               action := some "/voice/cold-call-response",
               httpMethod := some "POST" },
     .say "Hi, this is calling about LawBot 360. We help law firms capture leads 24/7 with AI. Visit lawbot360.com or call us back. Thanks!" VOICE]

/-- `/voice/outbound/cold-call`: reads `To` and `CallSid`. -/
def initiate_cold_call (form : Form) : Resp :=
  initiate_cold_call_core (formGet form "To") (formGet form "CallSid")

/-- `/voice/cold-call-response` (`src/main.py` lines 468-507), after form
extraction (`speech_result` already lowercased as in the source). -/
def handle_cold_call_response_core (st : St) (speech_result digits : String)
    (call_sid : Option String) (oracle : List (Option String)) : HOut :=
  let interested_keywords := ["yes", "sure", "okay", "interested", "tell me",
    "go ahead"]
  let not_interested_keywords := ["no", "busy", "not interested", "remove",
    "stop"]
  if interested_keywords.any (fun w => strContains speech_result w) ||
      digits == "1" then
    let g := get_ai_response st.conversations call_sid
      "Customer said yes to 5 minute pitch" "discovery" oracle
    ⟨{ st with conversations := g.convs },
     xmlResp [.say g.reply VOICE, .redirect "/voice/conversation"], g.oracle⟩
  else if not_interested_keywords.any (fun w => strContains speech_result w) then
    ⟨st, xmlResp [.say "No problem. Have a great day!" VOICE, .hangup], oracle⟩
  else
    ⟨st, xmlResp
      [.say "Sorry, I didn\x27t catch that. Do you have 5 minutes to hear how we can help? Press 1 for yes, 2 for no." VOICE,
       .gather { numDigits := some 1, action := some "/voice/cold-call-response",
                 timeout := some 5 }], oracle⟩

/-- `/voice/cold-call-response`: reads `SpeechResult`, `Digits`, `CallSid`. -/
def handle_cold_call_response (st : St) (form : Form)
    (oracle : List (Option String)) : HOut :=
  handle_cold_call_response_core st (pyLower (formGetD form "SpeechResult" ""))
    (formGetD form "Digits" "") (formGet form "CallSid") oracle

/-- `/voice/handle-choice` (`src/main.py` lines 510-567), after form
extraction. -/
def handle_choice_core (env : Env) (st : St)
    (choice from_number call_sid : Option String)
    (oracle : List (Option String)) : HOut :=
  if choice == some "1" then
    let g := get_ai_response st.conversations call_sid
      "User chose AI assistant to learn about LawBot 360" "greeting" oracle
    let st := { st with conversations := g.convs }
    let st := notify_human_transfer env st from_number call_sid
      "No response after initial greeting"
    ⟨st,
     xmlResp (transfer_to_human env
       [.say g.reply VOICE,
        .gather { input := some "speech", action := some "/voice/conversation",
                  httpMethod := some "POST", speechTimeout := some "auto",
                  timeout := some 10 },
        .say "I\x27m here to help. What would you like to know?" VOICE,
        .gather { input := some "speech", action := some "/voice/conversation",
                  httpMethod := some "POST", timeout := some 10 },
        .say "Let me connect you with someone who can help." VOICE]),
     g.oracle⟩
  else if choice == some "2" then
    let st := notify_human_transfer env st from_number call_sid
      "User requested human from menu"
    ⟨st, xmlResp (transfer_to_human env [.say "Connecting you now." VOICE]),
     oracle⟩
  else
    let st := notify_human_transfer env st from_number call_sid
      "Invalid menu choice"
    ⟨st,
     xmlResp (transfer_to_human env
       [.say "Let me transfer you to a team member." VOICE]), oracle⟩

/-- `/voice/handle-choice`: reads `Digits`, `From`, `CallSid`. -/
def handle_choice (env : Env) (st : St) (form : Form)
    (oracle : List (Option String)) : HOut :=
  handle_choice_core env st (formGet form "Digits") (formGet form "From")
    (formGet form "CallSid") oracle

/-- The caller-id / email / firm-name captures of `/voice/conversation`
(`src/main.py` lines 594-613), run only when the record already exists. -/
def captureFields (convs : List (Option String × Conv))
    (call_sid from_number : Option String) (speech_result : String) :
    List (Option String × Conv) :=
  let convs :=
    match lookupConv convs call_sid with
    | some c => setConv convs call_sid { c with phone_number := from_number }
    | none => convs
  let convs :=
    if strContains speech_result "@" && strContains speech_result "." then
      (pySplit (pyLower speech_result)).foldl (fun cs word =>
        if strContains word "@" && strContains word "." then
          match lookupConv cs call_sid with
          | some c =>
              setConv cs call_sid
                { c with email := some (pyStripChars word ['.', ',', '!', '?']) }
          | none => cs
        else cs) convs
    else convs
  if strContains (pyLower speech_result) "firm" ||
      strContains (pyLower speech_result) "law" then
    match lookupConv convs call_sid with
    | some c => setConv convs call_sid { c with firm_name := some speech_result }
    | none => convs
  else convs

/-- `/voice/conversation` (`src/main.py` lines 570-692), after form
extraction. -/
def conversation_core (env : Env) (st : St) (call_sid : Option String)
    (speech_result digits : String) (from_number : Option String)
    (oracle : List (Option String)) : HOut :=
  if strContains digits "*" ||
      ["human", "person", "representative", "transfer"].any
        (fun w => strContains (pyLower speech_result) w) then
    let st := notify_human_transfer env st from_number call_sid
      "User requested transfer during conversation"
    ⟨st,
     xmlResp (transfer_to_human env
       [.say "Of course, let me transfer you to a specialist now." VOICE]),
     oracle⟩
  else if speech_result ≠ "" then
    let convs := captureFields st.conversations call_sid from_number
      speech_result
    let g := get_ai_response convs call_sid speech_result "conversation" oracle
    let st := { st with conversations := g.convs }
    let ai_text :=
      if g.reply == "" || (pyStrip g.reply).length < 10 then
        "I\x27m here to help. Could you tell me more about that?"
      else g.reply
    if strContains (pyLower ai_text) "transfer" ||
        strContains (pyLower ai_text) "specialist" then
      let st := notify_human_transfer env st from_number call_sid
        "AI determined human needed"
      ⟨st, xmlResp (transfer_to_human env [.say ai_text VOICE]), g.oracle⟩
    else
      ⟨st,
       xmlResp
         [.say ai_text VOICE,
          .gather { input := some "speech", action := some "/voice/conversation",
                    httpMethod := some "POST", speechTimeout := some "auto",
                    timeout := some 10, finishOnKey := some "#" },
          .say "Are you still there?" VOICE,
          .gather { input := some "speech", action := some "/voice/conversation",
                    httpMethod := some "POST", timeout := some 10 },
          .say "I\x27m still here. Let me know when you\x27re ready." VOICE,
          .gather { input := some "speech", action := some "/voice/conversation",
                    httpMethod := some "POST", timeout := some 10 },
          .say "I\x27m having trouble hearing you. Let me connect you with someone who can help." VOICE,
          .dial env.human_phone 30 "/voice/dial-status" "POST"],
       g.oracle⟩
  else
    let st := notify_human_transfer env st from_number call_sid
      "No speech detected"
    ⟨st,
     xmlResp (transfer_to_human env
       [.say "I\x27m sorry, I didn\x27t hear anything. Let me connect you with a human specialist." VOICE]),
     oracle⟩

/-- `/voice/conversation`: reads `CallSid`, `SpeechResult`, `Digits`, `From`. -/
def conversation (env : Env) (st : St) (form : Form)
    (oracle : List (Option String)) : HOut :=
  conversation_core env st (formGet form "CallSid")
    (formGetD form "SpeechResult" "") (formGetD form "Digits" "")
    (formGet form "From") oracle

/-- `/voice/dial-status` (`src/main.py` lines 695-727), after form
extraction. -/
def dial_status_core (env : Env) (st : St)
    (dial_call_status _dial_call_duration call_sid from_number : Option String) :
    St × Resp :=
  if dial_call_status = some "completed" || dial_call_status = some "answered" then
    let st :=
      if pyTruthy call_sid && pyTruthy from_number then
        notify_human_transfer env st from_number call_sid
          "Transferred after no response to prompts"
      else st
    (st, xmlResp [.say "Thank you for using our service. Goodbye!" VOICE])
  else if dial_call_status = some "busy" then
    (st, xmlResp [.say "I\x27m sorry, the line is busy. Please try again later or call us directly at 504-383-3692." VOICE])
  else if dial_call_status = some "no-answer" then
    (st, xmlResp [.say "I\x27m sorry, no one answered. Please call us directly at 504-383-3692 or try again later." VOICE])
  else if dial_call_status = some "failed" then
    (st, xmlResp [.say "I\x27m sorry, the transfer failed. Please call us directly at 504-383-3692." VOICE])
  else
    (st, xmlResp [.say "Thank you for calling." VOICE])

/-- `/voice/dial-status`: reads `DialCallStatus`, `DialCallDuration`,
`CallSid`, `From`. -/
def dial_status (env : Env) (st : St) (form : Form) : St × Resp :=
  dial_status_core env st (formGet form "DialCallStatus")
    (formGet form "DialCallDuration") (formGet form "CallSid")
    (formGet form "From")

/-- `/voice/fallback-choice` (`src/main.py` lines 730-764), after form
extraction. -/
def fallback_choice_core (env : Env) (st : St)
    (choice call_sid from_number : Option String) : St × Resp :=
  if choice == some "1" then
    let st := notify_human_transfer env st from_number call_sid
      "User chose human from fallback"
    (st, xmlResp (transfer_to_human env [.say "Great, connecting you now." VOICE]))
  else
    let st := notify_human_transfer env st from_number call_sid
      "Multiple failed attempts"
    (st,
     xmlResp (transfer_to_human env
       [.say "Okay, let\x27s continue. Tell me about your law firm\x27s current intake process." VOICE,
        .gather { input := some "speech", action := some "/voice/conversation",
                  httpMethod := some "POST", timeout := some 10 },
        .say "Let me connect you with someone." VOICE]))

/-- `/voice/fallback-choice`: reads `Digits`, `CallSid`, `From`. -/
def fallback_choice (env : Env) (st : St) (form : Form) : St × Resp :=
  fallback_choice_core env st (formGet form "Digits") (formGet form "CallSid")
    (formGet form "From")

/-- The form fields read by each `/voice` endpoint (the `form_data.get`
calls of `src/main.py`). -/
def inbound_fields : List String := ["From", "CallSid"]

/-- Fields read by `/voice/outbound/cold-call`. -/
def cold_call_fields : List String := ["To", "CallSid"]

/-- Fields read by `/voice/cold-call-response`. -/
def cold_call_response_fields : List String := ["SpeechResult", "Digits", "CallSid"]

/-- Fields read by `/voice/handle-choice`. -/
def handle_choice_fields : List String := ["Digits", "From", "CallSid"]

/-- Fields read by `/voice/conversation`. -/
def conversation_fields : List String := ["CallSid", "SpeechResult", "Digits", "From"]

/-- Fields read by `/voice/dial-status`. -/
def dial_status_fields : List String :=
  ["DialCallStatus", "DialCallDuration", "CallSid", "From"]

/-- Fields read by `/voice/fallback-choice`. -/
def fallback_choice_fields : List String := ["Digits", "CallSid", "From"]

/-- All form fields read across the `/voice` endpoints. -/
def voice_webhook_fields : List String :=
  inbound_fields ++ cold_call_fields ++ cold_call_response_fields ++
    handle_choice_fields ++ conversation_fields ++ dial_status_fields ++
    fallback_choice_fields

/-- `n` successive calls of `notify_human_transfer` for the same call. -/
def iterNotify (env : Env) (from_number call_sid : Option String)
    (reason : String) : Nat → St → St
  | 0, st => st
  | n + 1, st =>
      iterNotify env from_number call_sid reason n
        (notify_human_transfer env st from_number call_sid reason)

/-- `n` successive calls of `send_integration_form_email` for the same
client email and firm name. -/
def iterSendForm (env : Env) (client_email client_name firm_name : String) :
    Nat → St → St
  | 0, st => st
  | n + 1, st =>
      iterSendForm env client_email client_name firm_name n
        (send_integration_form_email env st client_email client_name firm_name)

end Main

namespace HU

/-! Embedding of `src/human_update.py` (`VoiceSalesBot`). -/

/-- The `ConversationStage` enum (`src/human_update.py` lines 28-45). -/
inductive ConversationStage where
  | greeting
  | discovery
  | pain_points
  | solution_presentation
  | features_explanation
  | pricing_discussion
  | addons_presentation
  | maintenance_plans
  | objection_handling
  | closing
  | human_handoff
  | portal_signup
  | payment_setup
  | next_steps
  | integration_form
  | completed
deriving DecidableEq, Repr

/-- The `.value` string of each stage. -/
def stageValue : ConversationStage → String
  | .greeting => "greeting"
  | .discovery => "discovery"
  | .pain_points => "pain_points"
  | .solution_presentation => "solution_presentation"
  | .features_explanation => "features_explanation"
  | .pricing_discussion => "pricing_discussion"
  | .addons_presentation => "addons_presentation"
  | .maintenance_plans => "maintenance_plans"
  | .objection_handling => "objection_handling"
  | .closing => "closing"
  | .human_handoff => "human_handoff"
  | .portal_signup => "portal_signup"
  | .payment_setup => "payment_setup"
  | .next_steps => "next_steps"
  | .integration_form => "integration_form"
  | .completed => "completed"

/-- `VoiceSalesBot.maybe_advance_stage` (`src/human_update.py` lines
625-659): given the current stage and the assistant message, return the
(possibly advanced) stage.  No advancement from `HUMAN_HANDOFF`; otherwise a
four-entry transition table fires on substring triggers in the lowercased
assistant message. -/
def maybe_advance_stage (current : ConversationStage)
    (assistant_message : String) : ConversationStage :=
  let message_lower := pyLower assistant_message
  if current = .human_handoff then current
  else
    let transition : Option (ConversationStage × List String) :=
      match current with
      | .greeting =>
          some (.discovery, ["who am i speaking", "your name", "tell me about"])
      | .discovery =>
          some (.solution_presentation,
            ["lawbot 360", "let me show", "solve that"])
      | .solution_presentation =>
          some (.pricing_discussion, ["investment is", "25,000", "$25"])
      | .pricing_discussion =>
          some (.closing, ["does that work", "let\x27s get you set"])
      | _ => none
    match transition with
    | some (nxt, triggers) =>
        if triggers.any (fun t => strContains message_lower t) then nxt
        else current
    | none => current

/-- A history entry of `ConversationContext.add_message`
(`src/human_update.py` lines 86-93). -/
structure HMsg where
  role : String
  content : String
  timestamp : String
  stage : String
deriving DecidableEq, Repr

/-- `ConversationContext` (`src/human_update.py` lines 48-112).  The source
stores the prices as the floats `25000.00`; they are carried here as exact
rationals, no arithmetic on them is claimed. -/
structure ConversationContext where
  client_name : Option String := none
  firm_name : Option String := none
  email : Option String := none
  phone : Option String := none
  current_stage : ConversationStage := .greeting
  conversation_history : List HMsg := []
  pain_points : List String := []
  current_intake_method : Option String := none
  monthly_inquiries : Option String := none
  interested_addons : List String := []
  selected_maintenance_plan : Option String := none
  base_price : Rat := 25000
  total_price : Rat := 25000
  objections_raised : List String := []
  questions_asked : List String := []
  off_topic_count : Nat := 0
  wants_human : Bool := false
  deal_closed : Bool := false
  payment_completed : Bool := false
  integration_form_sent : Bool := false
deriving DecidableEq, Repr

/-- `ConversationContext.add_message`; `now` is the
`datetime.now().isoformat()` timestamp. -/
def add_message (ctx : ConversationContext) (role content now : String) :
    ConversationContext :=
  { ctx with conversation_history := ctx.conversation_history ++
      [{ role := role, content := content, timestamp := now,
         stage := stageValue ctx.current_stage }] }

/-- The dictionary produced by `ConversationContext.to_dict`
(`src/human_update.py` lines 95-112). -/
structure ConvDict where
  client_name : Option String
  firm_name : Option String
  email : Option String
  phone : Option String
  current_stage : String
  conversation_history : List HMsg
  pain_points : List String
  interested_addons : List String
  selected_maintenance_plan : Option String
  total_price : Rat
  deal_closed : Bool
  payment_completed : Bool
  integration_form_sent : Bool
  wants_human : Bool
deriving DecidableEq, Repr

/-- `ConversationContext.to_dict`. -/
def to_dict (ctx : ConversationContext) : ConvDict :=
  { client_name := ctx.client_name
    firm_name := ctx.firm_name
    email := ctx.email
    phone := ctx.phone
    current_stage := stageValue ctx.current_stage
    conversation_history := ctx.conversation_history
    pain_points := ctx.pain_points
    interested_addons := ctx.interested_addons
    selected_maintenance_plan := ctx.selected_maintenance_plan
    total_price := ctx.total_price
    deal_closed := ctx.deal_closed
    payment_completed := ctx.payment_completed
    integration_form_sent := ctx.integration_form_sent
    wants_human := ctx.wants_human }

/-- `VoiceSalesBot.save_conversation` (`src/human_update.py` lines 773-781):
serializes `self.context.to_dict()` with `json.dump` into the file
`conversation_{timestamp}.json`.  The durable store is modeled as the list
of (filename, serialized record) pairs; `now` is the
`datetime.now().strftime(...)` timestamp. -/
def save_conversation (files : List (String × ConvDict))
    (ctx : ConversationContext) (now : String) : List (String × ConvDict) :=
  files ++ [("conversation_" ++ now ++ ".json", to_dict ctx)]

end HU

/-! Concrete inputs used by closed witness and counterexample theorems. -/

/-- A deployment environment with a configured transfer phone and a
non-Gmail sender address. -/
def env0 : Main.Env :=
  { human_phone := some "+15043833692"
    admin_email := none
    from_email := some "ops@4dgaming.games" }

/-- The empty module state (fresh process). -/
def st0 : Main.St := ⟨[], [], [], []⟩

/-- A `/voice/handle-choice` form where the caller pressed 2. -/
def choiceForm2 : Main.Form :=
  [("Digits", "2"), ("From", "+15551234567"), ("CallSid", "CA1")]

/-- A `/voice/dial-status` form reporting a busy line. -/
def dialFormBusy : Main.Form :=
  [("CallSid", "CA1"), ("From", "+15551234567"), ("DialCallStatus", "busy")]

/-- The same `/voice/dial-status` form except the status is no-answer. -/
def dialFormNoAnswer : Main.Form :=
  [("CallSid", "CA1"), ("From", "+15551234567"), ("DialCallStatus", "no-answer")]

/-- A conversation whose last bot message is the trial close
"Does that work for you?" (from the PRICING_DISCUSSION script of
`src/human_update.py`), which is a `maybe_advance_stage` trigger but not a
`closing_indicators` entry of `src/main.py`. -/
def convC3 : Main.Conv :=
  { Main.initConv with
      history := [⟨"assistant", "Does that work for you?"⟩] }

/-- The `conversations` dict holding `convC3` under call id CA1. -/
def convsC3 : List (Option String × Main.Conv) := [(some "CA1", convC3)]

/-- A conversation context with one history entry and captured fields. -/
def ctxC5 : HU.ConversationContext :=
  { current_stage := .closing
    conversation_history := [⟨"user", "yes", "2025-10-12T12:00:00", "closing"⟩]
    client_name := some "Jane Doe"
    email := some "jane@firmmail.com" }

/-! Helper lemmas about the embedding. -/

theorem convAfterSwitch_history (c : Main.Conv) (u : String) :
    (Main.convAfterSwitch c u).history = c.history := by
  unfold Main.convAfterSwitch
  split <;> rfl

theorem shouldSwitch_phase {c : Main.Conv} {u : String}
    (h : Main.shouldSwitch c u = true) : c.phase = "SALES" := by
  unfold Main.shouldSwitch at h
  simp only [Bool.and_eq_true, beq_iff_eq] at h
  exact h.1.1

theorem convAfterSwitch_phase (c : Main.Conv) (u : String) :
    (Main.convAfterSwitch c u).phase = c.phase ∨
      (c.phase = "SALES" ∧ (Main.convAfterSwitch c u).phase = "ONBOARDING") := by
  unfold Main.convAfterSwitch
  split
  · next h => exact Or.inr ⟨shouldSwitch_phase h, rfl⟩
  · exact Or.inl rfl

theorem stepTrack_history (c : Main.Conv) (rl : String) :
    (Main.stepTrack c rl).history = c.history := by
  unfold Main.stepTrack
  cases Main.stepNumber rl <;> rfl

theorem stepTrack_phase (c : Main.Conv) (rl : String) :
    (Main.stepTrack c rl).phase = c.phase := by
  unfold Main.stepTrack
  cases Main.stepNumber rl <;> rfl

theorem successConv_history (c : Main.Conv) (r : String) :
    (Main.successConv c r).history = c.history ++ [⟨"assistant", r⟩] := by
  cases hph : c.phase == "ONBOARDING" with
  | false => simp [Main.successConv, hph]
  | true => simp [Main.successConv, hph, stepTrack_history]

theorem successConv_phase (c : Main.Conv) (r : String) :
    (Main.successConv c r).phase = c.phase := by
  cases hph : c.phase == "ONBOARDING" with
  | false => simp [Main.successConv, hph]
  | true => simp [Main.successConv, hph, stepTrack_phase]

theorem lookup_set_self (l : List (Option String × Main.Conv))
    (k : Option String) (v : Main.Conv) :
    Main.lookupConv (Main.setConv l k v) k = some v := by
  induction l with
  | nil => simp [Main.setConv, Main.lookupConv]
  | cons p t ih =>
      obtain ⟨k', w⟩ := p
      by_cases hk : k' = k
      · simp [Main.setConv, Main.lookupConv, hk]
      · simp [Main.setConv, Main.lookupConv, hk, ih]

/-- The record written back by `get_ai_response`: its history is the
pre-call record\x27s history, the user message, and the assistant message
when the vendor call succeeds; its phase is the post-switch phase. -/
theorem gai_convs (convs : List (Option String × Main.Conv))
    (sid : Option String) (input stage : String)
    (oracle : List (Option String)) :
    ∃ cf,
      (Main.get_ai_response convs sid input stage oracle).convs =
        Main.setConv convs sid cf ∧
      cf.history =
        ((Main.lookupConv convs sid).getD Main.initConv).history ++
          [⟨"user", input⟩] ++
          (match oracle with
           | some r :: _ => [⟨"assistant", r⟩]
           | _ => []) ∧
      cf.phase =
        (Main.convAfterSwitch
          (Main.convAfterUser ((Main.lookupConv convs sid).getD Main.initConv)
            input) input).phase := by
  match oracle with
  | [] =>
      refine ⟨_, rfl, ?_, rfl⟩
      rw [convAfterSwitch_history]
      simp [Main.convAfterUser]
  | none :: rest =>
      refine ⟨_, rfl, ?_, rfl⟩
      rw [convAfterSwitch_history]
      simp [Main.convAfterUser]
  | some r :: rest =>
      refine ⟨_, rfl, ?_, ?_⟩
      · rw [successConv_history, convAfterSwitch_history]
        simp [Main.convAfterUser]
      · rw [successConv_phase]

theorem notify_sent_mem (env : Main.Env) (st : Main.St)
    (fr sid : Option String) (r : String) :
    sid ∈ (Main.notify_human_transfer env st fr sid r).sent_notifications := by
  unfold Main.notify_human_transfer
  split
  · next h => exact List.mem_of_elem_eq_true h
  · cases env.admin_email with
    | none =>
        cases env.from_email with
        | none => simp
        | some f => simp only; split <;> simp
    | some a => simp only; split <;> simp

theorem notify_skip (env : Main.Env) (st : Main.St)
    (fr sid : Option String) (r : String)
    (h : sid ∈ st.sent_notifications) :
    Main.notify_human_transfer env st fr sid r = st := by
  have hc : st.sent_notifications.contains sid = true :=
    List.elem_eq_true_of_mem h
  unfold Main.notify_human_transfer
  exact if_pos hc

theorem notify_emails_le (env : Main.Env) (st : Main.St)
    (fr sid : Option String) (r : String) :
    (Main.notify_human_transfer env st fr sid r).emails.length ≤
      st.emails.length + 1 := by
  unfold Main.notify_human_transfer
  split
  · omega
  · cases env.admin_email with
    | none =>
        cases env.from_email with
        | none => simp
        | some f => simp only; split <;> simp
    | some a => simp only; split <;> simp

theorem notify_convs (env : Main.Env) (st : Main.St)
    (fr sid : Option String) (r : String) :
    (Main.notify_human_transfer env st fr sid r).conversations =
      st.conversations := by
  unfold Main.notify_human_transfer
  split
  · rfl
  · cases env.admin_email with
    | none =>
        cases env.from_email with
        | none => simp
        | some f => simp only; split <;> simp
    | some a => simp only; split <;> simp

theorem iterNotify_skip (env : Main.Env) (fr sid : Option String) (r : String)
    (n : Nat) (st : Main.St) (h : sid ∈ st.sent_notifications) :
    Main.iterNotify env fr sid r n st = st := by
  induction n with
  | zero => rfl
  | succ k ih =>
      show Main.iterNotify env fr sid r k
        (Main.notify_human_transfer env st fr sid r) = st
      rw [notify_skip env st fr sid r h, ih]

theorem sendForm_key_mem (env : Main.Env) (st : Main.St)
    (ce cn fn : String) :
    (ce ++ ":" ++ fn) ∈
      (Main.send_integration_form_email env st ce cn fn).sent_integration_forms := by
  simp only [Main.send_integration_form_email]
  split
  · next h => exact List.mem_of_elem_eq_true h
  · cases env.admin_email with
    | none => simp only; split <;> simp
    | some a => simp only; split <;> simp

theorem sendForm_skip (env : Main.Env) (st : Main.St) (ce cn fn : String)
    (h : (ce ++ ":" ++ fn) ∈ st.sent_integration_forms) :
    Main.send_integration_form_email env st ce cn fn = st := by
  have hc : st.sent_integration_forms.contains (ce ++ ":" ++ fn) = true :=
    List.elem_eq_true_of_mem h
  unfold Main.send_integration_form_email
  exact if_pos hc

theorem sendForm_emails_le (env : Main.Env) (st : Main.St)
    (ce cn fn : String) :
    (Main.send_integration_form_email env st ce cn fn).emails.length ≤
      st.emails.length + 1 := by
  simp only [Main.send_integration_form_email]
  split
  · omega
  · cases env.admin_email with
    | none => simp only; split <;> simp
    | some a => simp only; split <;> simp

theorem iterSendForm_skip (env : Main.Env) (ce cn fn : String) (n : Nat)
    (st : Main.St) (h : (ce ++ ":" ++ fn) ∈ st.sent_integration_forms) :
    Main.iterSendForm env ce cn fn n st = st := by
  induction n with
  | zero => rfl
  | succ k ih =>
      show Main.iterSendForm env ce cn fn k
        (Main.send_integration_form_email env st ce cn fn) = st
      rw [sendForm_skip env st ce cn fn h, ih]

theorem transfer_target_mem (env : Main.Env) (vs : List Main.Verb) :
    (∃ p, env.human_phone = some p ∧
      Main.Verb.dial (some p) 30 "/voice/dial-status" "POST" ∈
        Main.transfer_to_human env vs) ∨
    (env.human_phone = none ∧
      Main.Verb.say "I apologize, but I\x27m unable to transfer you right now. Please call us directly at 504-383-3692."
          Main.VOICE ∈
        Main.transfer_to_human env vs) := by
  obtain ⟨hp, ae, fe⟩ := env
  cases hp with
  | none => exact Or.inr ⟨rfl, by simp [Main.transfer_to_human]⟩
  | some p => exact Or.inl ⟨p, rfl, by simp [Main.transfer_to_human]⟩

theorem transfer_head (env : Main.Env) (v : Main.Verb) (vs : List Main.Verb) :
    (Main.transfer_to_human env (v :: vs)).head? = some v := by
  obtain ⟨hp, ae, fe⟩ := env
  cases hp <;> simp [Main.transfer_to_human]

/-! The claim theorems. -/

/-- C1: conversation state lives in the in-memory `conversations` mapping
from call identifier to a record holding the history list, the stage/phase
strings and the extracted fields; `get_ai_response` consults `initConv`
(history `[]`, stage `greeting`, phase `SALES`, no captured name, email or
phone) when the call id is absent, the stored record otherwise; it appends
the user message to the record\x27s history, and the messages handed to the
chat completion are the system prompt built from the stage and the
(post-switch) record followed by the last 15 history entries. -/
theorem C1_conversation_state_bookkeeping
    (convs : List (Option String × Main.Conv)) (call_sid : Option String)
    (user_input stage : String) (oracle : List (Option String)) :
    (Main.lookupConv convs call_sid = none →
      (Main.lookupConv convs call_sid).getD Main.initConv = Main.initConv) ∧
    Main.initConv.history = [] ∧
    Main.initConv.stage = "greeting" ∧
    Main.initConv.phase = "SALES" ∧
    Main.initConv.client_name = none ∧
    Main.initConv.email = none ∧
    Main.initConv.phone_number = none ∧
    (∃ c,
      Main.lookupConv
          (Main.get_ai_response convs call_sid user_input stage oracle).convs
          call_sid = some c ∧
      ∃ tail,
        c.history =
          ((Main.lookupConv convs call_sid).getD Main.initConv).history ++
            Main.Msg.mk "user" user_input :: tail) ∧
    (Main.get_ai_response convs call_sid user_input stage oracle).messagesSent =
      Main.Msg.mk "system"
          (Main.buildSystemPrompt stage
            (Main.convAfterSwitch
              (Main.convAfterUser
                ((Main.lookupConv convs call_sid).getD Main.initConv)
                user_input) user_input)) ::
        pyLastN 15
          (Main.convAfterSwitch
            (Main.convAfterUser
              ((Main.lookupConv convs call_sid).getD Main.initConv) user_input)
            user_input).history := by
  refine ⟨fun h => by rw [h]; rfl, rfl, rfl, rfl, rfl, rfl, rfl, ?_, ?_⟩
  · obtain ⟨cf, hconvs, hhist, -⟩ :=
      gai_convs convs call_sid user_input stage oracle
    refine ⟨cf, by rw [hconvs]; exact lookup_set_self convs call_sid cf, ?_⟩
    match oracle, hhist with
    | [], hhist => exact ⟨[], by rw [hhist]; simp⟩
    | none :: rest, hhist => exact ⟨[], by rw [hhist]; simp⟩
    | some r :: rest, hhist =>
        exact ⟨[Main.Msg.mk "assistant" r], by rw [hhist]; simp⟩
  · cases oracle with
    | nil => rfl
    | cons o rest => cases o <;> rfl

/-- C2: when the chat-completion call raises (oracle head `none`),
`get_ai_response` returns the canned apology string instead of re-raising,
and for any outcome it consumes exactly one vendor outcome — no retry. -/
theorem C2_vendor_exception_fallback
    (convs : List (Option String × Main.Conv)) (call_sid : Option String)
    (user_input stage : String) (o : Option String)
    (rest : List (Option String)) :
    (Main.get_ai_response convs call_sid user_input stage
        (none :: rest)).reply =
      "I apologize, let me connect you with a human specialist who can help." ∧
    (Main.get_ai_response convs call_sid user_input stage (o :: rest)).oracle =
      rest :=
  ⟨rfl, by cases o <;> rfl⟩

/-- C3: the stage dispatchers of the two files diverge on a concrete
conversation: after the bot message "Does that work for you?" (a
PRICING_DISCUSSION trial close) and the affirmative reply "yes",
`src/main.py` keeps the record in the SALES phase (no closing indicator
matches), while `maybe_advance_stage` of `src/human_update.py` advances
PRICING_DISCUSSION to CLOSING on the "does that work" trigger. -/
theorem C3_stage_dispatch_divergence :
    Option.map Main.Conv.phase
        (Main.lookupConv
          (Main.get_ai_response convsC3 (some "CA1") "yes" "conversation"
            [some "Great, let me explain more."]).convs
          (some "CA1")) = some "SALES" ∧
    Main.shouldSwitch (Main.convAfterUser convC3 "yes") "yes" = false ∧
    HU.maybe_advance_stage .pricing_discussion "Does that work for you?" =
      .closing ∧
    HU.ConversationStage.closing ≠ HU.ConversationStage.pricing_discussion := by
  refine ⟨by decide, by decide, by decide, by decide⟩

/-- C5 counterexample: `VoiceSalesBot.save_conversation` writes the
conversation record — history, stage and captured fields, serialized by
`to_dict` — to a JSON file, so the program does durably store a conversation
record, contradicting the claim that no operation writes one to any durable
store. -/
theorem C5_counterexample_save_writes_file :
    HU.save_conversation [] ctxC5 "20251012_120000" =
      [("conversation_20251012_120000.json", HU.to_dict ctxC5)] ∧
    (HU.to_dict ctxC5).conversation_history = ctxC5.conversation_history ∧
    (HU.to_dict ctxC5).current_stage = "closing" ∧
    (HU.to_dict ctxC5).client_name = some "Jane Doe" ∧
    HU.save_conversation [] ctxC5 "20251012_120000" ≠ [] := by
  refine ⟨rfl, rfl, rfl, rfl, by decide⟩

/-- C5 amended: conversation records of the webhook service in
`src/main.py` live only in the in-memory `conversations` mapping, but
`VoiceSalesBot.save_conversation` in `src/human_update.py` does write the
conversation record durably: it appends exactly one file named
`conversation_{timestamp}.json` whose content is `to_dict` of the context —
carrying the record\x27s history, stage and captured fields. -/
theorem C5_amended_save_conversation_spec
    (files : List (String × HU.ConvDict)) (ctx : HU.ConversationContext)
    (now : String) :
    HU.save_conversation files ctx now =
      files ++ [("conversation_" ++ now ++ ".json", HU.to_dict ctx)] ∧
    (HU.to_dict ctx).conversation_history = ctx.conversation_history ∧
    (HU.to_dict ctx).current_stage = HU.stageValue ctx.current_stage ∧
    (HU.to_dict ctx).client_name = ctx.client_name ∧
    (HU.to_dict ctx).email = ctx.email ∧
    (HU.to_dict ctx).phone = ctx.phone :=
  ⟨rfl, rfl, rfl, rfl, rfl, rfl⟩

/-- C4 counterexample: the `/voice/dial-status` endpoint distinguishes two
forms that agree on `From`, `CallSid`, `SpeechResult` and `Digits` and
differ only in `DialCallStatus`, so the voice-webhook interface does not
consist of those four form fields alone. -/
theorem C4_counterexample_dial_status_fields :
    Main.formGet dialFormBusy "From" = Main.formGet dialFormNoAnswer "From" ∧
    Main.formGet dialFormBusy "CallSid" =
      Main.formGet dialFormNoAnswer "CallSid" ∧
    Main.formGet dialFormBusy "SpeechResult" =
      Main.formGet dialFormNoAnswer "SpeechResult" ∧
    Main.formGet dialFormBusy "Digits" =
      Main.formGet dialFormNoAnswer "Digits" ∧
    (Main.dial_status env0 st0 dialFormBusy).2 ≠
      (Main.dial_status env0 st0 dialFormNoAnswer).2 := by
  refine ⟨rfl, rfl, rfl, rfl, by decide⟩

/-- C4 amended: the Twilio form fields read by the `/voice` endpoints are
`From`, `CallSid`, `SpeechResult`, `Digits`, `To`, `DialCallStatus` and
`DialCallDuration`; every `/voice` endpoint returns its TwiML `VoiceResponse`
with media type `application/xml`, and `/voice/dial-status` depends on no
form field outside its list. -/
theorem C4_amended_voice_interface :
    Main.voice_webhook_fields.toFinset =
      (["From", "CallSid", "SpeechResult", "Digits", "To", "DialCallStatus",
        "DialCallDuration"] : List String).toFinset ∧
    (∀ env form,
      (Main.handle_inbound_call env form).mediaType = "application/xml") ∧
    (∀ form, (Main.initiate_cold_call form).mediaType = "application/xml") ∧
    (∀ st form oracle,
      (Main.handle_cold_call_response st form oracle).resp.mediaType =
        "application/xml") ∧
    (∀ env st form oracle,
      (Main.handle_choice env st form oracle).resp.mediaType =
        "application/xml") ∧
    (∀ env st form oracle,
      (Main.conversation env st form oracle).resp.mediaType =
        "application/xml") ∧
    (∀ env st form,
      (Main.dial_status env st form).2.mediaType = "application/xml") ∧
    (∀ env st form,
      (Main.fallback_choice env st form).2.mediaType = "application/xml") ∧
    (∀ env st f1 f2,
      (∀ k, k ∈ Main.dial_status_fields → Main.formGet f1 k = Main.formGet f2 k) →
        Main.dial_status env st f1 = Main.dial_status env st f2) := by
  refine ⟨by decide, fun env form => rfl, fun form => rfl, ?_, ?_, ?_, ?_, ?_, ?_⟩
  · intro st form oracle
    simp only [Main.handle_cold_call_response,
      Main.handle_cold_call_response_core]
    repeat' split
    all_goals rfl
  · intro env st form oracle
    simp only [Main.handle_choice, Main.handle_choice_core]
    repeat' split
    all_goals rfl
  · intro env st form oracle
    simp only [Main.conversation, Main.conversation_core]
    repeat' split
    all_goals rfl
  · intro env st form
    simp only [Main.dial_status, Main.dial_status_core]
    repeat' split
    all_goals rfl
  · intro env st form
    simp only [Main.fallback_choice, Main.fallback_choice_core]
    repeat' split
    all_goals rfl
  · intro env st f1 f2 h
    unfold Main.dial_status
    rw [h "DialCallStatus" (by decide), h "DialCallDuration" (by decide),
      h "CallSid" (by decide), h "From" (by decide)]

/-- C6 counterexample: the `/voice/handle-choice` handler mutates the
module-level `sent_notifications` set (through `notify_human_transfer`), so
the `conversations` mapping is not the only cross-request mutable
module-level state the request handlers touch. -/
theorem C6_counterexample_not_only_conversations :
    (Main.handle_choice env0 st0 choiceForm2 []).st.sent_notifications ≠
      st0.sent_notifications := by
  decide

/-- C6 amended: besides the `conversations` mapping, the handlers share two
more unsynchronized module-level mutable objects: `sent_notifications`
(written by `notify_human_transfer` from the voice handlers — here
`/voice/handle-choice` on Digits 2 records the call id) and
`sent_integration_forms` (written by `send_integration_form_email`, called
from the payment webhook, which records the dedup key). -/
theorem C6_amended_shared_state_objects (env : Main.Env) (st : Main.St)
    (form : Main.Form) (oracle : List (Option String)) (ce cn fn : String) :
    (Main.formGet form "Digits" = some "2" →
      Main.formGet form "CallSid" ∈
        (Main.handle_choice env st form oracle).st.sent_notifications) ∧
    (ce ++ ":" ++ fn) ∈
      (Main.send_integration_form_email env st ce cn fn).sent_integration_forms := by
  constructor
  · intro hd
    unfold Main.handle_choice Main.handle_choice_core
    rw [hd]
    rw [if_neg (by decide), if_pos (by decide)]
    exact notify_sent_mem env st (Main.formGet form "From")
      (Main.formGet form "CallSid") "User requested human from menu"
  · exact sendForm_key_mem env st ce cn fn

/-- C6 witness: the amended statement at a concrete form and state. -/
theorem C6_witness_shared_state_objects :
    (some "CA1" : Option String) ∈
      (Main.handle_choice env0 st0 choiceForm2 []).st.sent_notifications ∧
    ("jane@firmmail.com" ++ ":" ++ "None") ∈
      (Main.send_integration_form_email env0 st0 "jane@firmmail.com" "None"
        "None").sent_integration_forms := by
  have h := C6_amended_shared_state_objects env0 st0 choiceForm2 []
    "jane@firmmail.com" "None" "None"
  exact ⟨h.1 rfl, h.2⟩

/-- C7: for any `Digits` value other than 1, `/voice/handle-choice` does not
start the AI conversation (the `conversations` mapping is untouched) and its
TwiML transfers the caller — a `Dial` to the configured human number, or the
canned apology naming the direct number when `PHONE` is unset; with Digits 1
it starts the AI conversation: the record for the call id exists afterwards
and the first TwiML verb speaks the AI reply. -/
theorem C7_handle_choice_routing (env : Main.Env) (st : Main.St)
    (form : Main.Form) (oracle : List (Option String)) :
    (Main.formGet form "Digits" ≠ some "1" →
      (Main.handle_choice env st form oracle).st.conversations =
        st.conversations ∧
      ((∃ p, env.human_phone = some p ∧
          Main.Verb.dial (some p) 30 "/voice/dial-status" "POST" ∈
            (Main.handle_choice env st form oracle).resp.verbs) ∨
        (env.human_phone = none ∧
          Main.Verb.say "I apologize, but I\x27m unable to transfer you right now. Please call us directly at 504-383-3692."
              Main.VOICE ∈
            (Main.handle_choice env st form oracle).resp.verbs))) ∧
    (Main.formGet form "Digits" = some "1" →
      (∃ c, Main.lookupConv
          (Main.handle_choice env st form oracle).st.conversations
          (Main.formGet form "CallSid") = some c) ∧
      (Main.handle_choice env st form oracle).resp.verbs.head? =
        some (.say
          (Main.get_ai_response st.conversations (Main.formGet form "CallSid")
            "User chose AI assistant to learn about LawBot 360" "greeting"
            oracle).reply Main.VOICE)) := by
  constructor
  · intro hd
    have h1 : ¬((Main.formGet form "Digits" == some "1") = true) := by
      simp only [beq_iff_eq]
      exact hd
    unfold Main.handle_choice Main.handle_choice_core
    rw [if_neg h1]
    split
    · exact ⟨notify_convs env st (Main.formGet form "From")
        (Main.formGet form "CallSid") "User requested human from menu",
        transfer_target_mem env [.say "Connecting you now." Main.VOICE]⟩
    · exact ⟨notify_convs env st (Main.formGet form "From")
        (Main.formGet form "CallSid") "Invalid menu choice",
        transfer_target_mem env
          [.say "Let me transfer you to a team member." Main.VOICE]⟩
  · intro hd
    have hred : (Main.handle_choice env st form oracle).st.conversations =
        (Main.get_ai_response st.conversations (Main.formGet form "CallSid")
          "User chose AI assistant to learn about LawBot 360" "greeting"
          oracle).convs := by
      unfold Main.handle_choice Main.handle_choice_core
      rw [hd, if_pos (beq_self_eq_true _)]
      exact notify_convs env _ (Main.formGet form "From")
        (Main.formGet form "CallSid") "No response after initial greeting"
    obtain ⟨cf, hconvs, -, -⟩ := gai_convs st.conversations
      (Main.formGet form "CallSid")
      "User chose AI assistant to learn about LawBot 360" "greeting" oracle
    constructor
    · refine ⟨cf, ?_⟩
      rw [hred, hconvs]
      exact lookup_set_self st.conversations (Main.formGet form "CallSid") cf
    · have hv : (Main.handle_choice env st form oracle).resp.verbs.head? =
          (Main.transfer_to_human env
            (Main.Verb.say
              (Main.get_ai_response st.conversations
                (Main.formGet form "CallSid")
                "User chose AI assistant to learn about LawBot 360" "greeting"
                oracle).reply Main.VOICE ::
              [.gather { input := some "speech",
                         action := some "/voice/conversation",
                         httpMethod := some "POST",
                         speechTimeout := some "auto", timeout := some 10 },
               .say "I\x27m here to help. What would you like to know?"
                 Main.VOICE,
               .gather { input := some "speech",
                         action := some "/voice/conversation",
                         httpMethod := some "POST", timeout := some 10 },
               .say "Let me connect you with someone who can help."
                 Main.VOICE])).head? := by
        unfold Main.handle_choice Main.handle_choice_core
        rw [hd, if_pos (beq_self_eq_true _)]
        rfl
      rw [hv, transfer_head]

/-- C7 witness: the routing statement at a concrete form (Digits 2), with
the hypotheses discharged. -/
theorem C7_witness_handle_choice_routing :
    (Main.handle_choice env0 st0 choiceForm2 []).st.conversations =
      st0.conversations ∧
    ((∃ p, env0.human_phone = some p ∧
        Main.Verb.dial (some p) 30 "/voice/dial-status" "POST" ∈
          (Main.handle_choice env0 st0 choiceForm2 []).resp.verbs) ∨
      (env0.human_phone = none ∧
        Main.Verb.say "I apologize, but I\x27m unable to transfer you right now. Please call us directly at 504-383-3692."
            Main.VOICE ∈
          (Main.handle_choice env0 st0 choiceForm2 []).resp.verbs)) := by
  have h := (C7_handle_choice_routing env0 st0 choiceForm2 []).1 (by decide)
  exact h

/-- C8: email sending is idempotent per deduplication key: any number of
`notify_human_transfer` calls for one call id sends at most one email, and
any number of `send_integration_form_email` calls for one
(client email, firm name) pair sends at most one email. -/
theorem C8_email_idempotence (env : Main.Env) (fr sid : Option String)
    (reason ce cn fn : String) (n m : Nat) (st st2 : Main.St) :
    (Main.iterNotify env fr sid reason n st).emails.length ≤
      st.emails.length + 1 ∧
    (Main.iterSendForm env ce cn fn m st2).emails.length ≤
      st2.emails.length + 1 := by
  constructor
  · cases n with
    | zero => simp [Main.iterNotify]
    | succ k =>
        show (Main.iterNotify env fr sid reason k
          (Main.notify_human_transfer env st fr sid reason)).emails.length ≤ _
        by_cases h : sid ∈ st.sent_notifications
        · rw [notify_skip env st fr sid reason h, iterNotify_skip env fr sid
            reason k st h]
          omega
        · rw [iterNotify_skip env fr sid reason k _
            (notify_sent_mem env st fr sid reason)]
          exact notify_emails_le env st fr sid reason
  · cases m with
    | zero => simp [Main.iterSendForm]
    | succ k =>
        show (Main.iterSendForm env ce cn fn k
          (Main.send_integration_form_email env st2 ce cn fn)).emails.length ≤ _
        by_cases h : (ce ++ ":" ++ fn) ∈ st2.sent_integration_forms
        · rw [sendForm_skip env st2 ce cn fn h, iterSendForm_skip env ce cn fn
            k st2 h]
          omega
        · rw [iterSendForm_skip env ce cn fn k _
            (sendForm_key_mem env st2 ce cn fn)]
          exact sendForm_emails_le env st2 ce cn fn

/-- C9: the phase of a conversation record starts as SALES (`initConv`) and
one `get_ai_response` call either leaves it unchanged or moves it from SALES
to ONBOARDING; it is never reset to SALES. -/
theorem C9_phase_monotone (convs : List (Option String × Main.Conv))
    (call_sid : Option String) (user_input stage : String)
    (oracle : List (Option String)) :
    Main.initConv.phase = "SALES" ∧
    ∃ c,
      Main.lookupConv
          (Main.get_ai_response convs call_sid user_input stage oracle).convs
          call_sid = some c ∧
      (c.phase = ((Main.lookupConv convs call_sid).getD Main.initConv).phase ∨
        (((Main.lookupConv convs call_sid).getD Main.initConv).phase = "SALES" ∧
          c.phase = "ONBOARDING")) := by
  refine ⟨rfl, ?_⟩
  obtain ⟨cf, hconvs, -, hphase⟩ :=
    gai_convs convs call_sid user_input stage oracle
  refine ⟨cf, by rw [hconvs]; exact lookup_set_self convs call_sid cf, ?_⟩
  rw [hphase]
  have h := convAfterSwitch_phase
    (Main.convAfterUser ((Main.lookupConv convs call_sid).getD Main.initConv)
      user_input) user_input
  cases h with
  | inl h => exact Or.inl h
  | inr h => exact Or.inr h

/-- C10: `get_ai_response` appends an assistant entry to the history exactly
when the vendor call succeeds: with outcome `some r` the record gains the
user message and the assistant message `r`; with a raised exception (`none`)
it gains only the user message, and the canned apology is not recorded. -/
theorem C10_assistant_append_iff_success
    (convs : List (Option String × Main.Conv)) (call_sid : Option String)
    (user_input stage : String) (o : Option String)
    (rest : List (Option String)) :
    ∃ c,
      Main.lookupConv
          (Main.get_ai_response convs call_sid user_input stage
            (o :: rest)).convs call_sid = some c ∧
      c.history =
        ((Main.lookupConv convs call_sid).getD Main.initConv).history ++
          [Main.Msg.mk "user" user_input] ++
          (match o with
           | some r => [Main.Msg.mk "assistant" r]
           | none => []) := by
  obtain ⟨cf, hconvs, hhist, -⟩ :=
    gai_convs convs call_sid user_input stage (o :: rest)
  refine ⟨cf, by rw [hconvs]; exact lookup_set_self convs call_sid cf, ?_⟩
  rw [hhist]
  cases o <;> rfl

end VoiceFusion
